import Mathlib

/-!
# gitwhisper: provider clients, engine selector and the generate run

A shallow embedding of `internal/ai/engine.go`, `internal/git/git.go` and
`cmd/generate.go`.

Go strings are modelled by Lean `String` (valid Unicode text).  Go `error`
values are modelled by their text (`Option String`, `none` for `nil`).
Everything outside the repository that the code calls (os/exec, net/http,
encoding/json, viper, the Unicode case tables) is a field of an explicit
environment record, so every theorem holds for all behaviours of those
collaborators.
-/

namespace GitWhisper

/-! ## Package `strings` -/

/-- Go `strings.HasSuffix`. -/
def HasSuffix (s suffix : String) : Bool :=
  suffix.data.isSuffixOf s.data

/-- Go `strings.TrimRight`: drop every trailing code point contained in `cutset`. -/
def TrimRight (s cutset : String) : String :=
  ⟨s.data.rdropWhile (fun c => cutset.data.contains c)⟩

/-- Go `unicode.IsSpace`: the Latin-1 spaces and the code points with the
White_Space property. -/
def isSpace (c : Char) : Bool :=
  let n := c.toNat
  n == 0x09 || n == 0x0A || n == 0x0B || n == 0x0C || n == 0x0D || n == 0x20 ||
  n == 0x85 || n == 0xA0 || n == 0x1680 || (0x2000 ≤ n && n ≤ 0x200A) ||
  n == 0x2028 || n == 0x2029 || n == 0x202F || n == 0x205F || n == 0x3000

/-- Go `strings.TrimSpace`: drop leading and trailing white space. -/
def TrimSpace (s : String) : String :=
  ⟨(s.data.dropWhile isSpace).rdropWhile isSpace⟩

/-- Go `unicode.ToLower` on one rune: ASCII is handled inline, every other
rune goes through the case tables of package `unicode`, here `tbl`. -/
def toLowerRune (tbl : Char → Char) (c : Char) : Char :=
  if c.toNat < 128 then
    (if 65 ≤ c.toNat ∧ c.toNat ≤ 90 then Char.ofNat (c.toNat + 32) else c)
  else tbl c

/-- Go `strings.ToLower`. -/
def ToLower (tbl : Char → Char) (s : String) : String :=
  ⟨s.data.map (toLowerRune tbl)⟩

/-- Substring test on texts, used to say that a text carries another one. -/
def Contains (s sub : String) : Bool :=
  s.data.tails.any (fun t => sub.data.isPrefixOf t)

/-! ## Package `internal/ai` -/

/-- The constant `SystemPrompt`. -/
def SystemPrompt : String :=
  "You are a commit message generator.\n" ++
  "Generate a Semantic Commit Message (Conventional Commits) based on the provided git diff.\n" ++
  "Format: <type>(<scope>): <subject>\n" ++
  "Types: feat, fix, docs, style, refactor, perf, test, build, ci, chore, revert.\n" ++
  "Rules:\n" ++
  "1. Use the imperative mood.\n" ++
  "2. Limit the subject line to 50 characters if possible.\n" ++
  "3. Do NOT include any explanations, markdown code blocks, or conversation.\n" ++
  "4. Output strict raw text of the commit message only.\n"

/-- A JSON value as handed to `json.Marshal`.  A number is the decimal
`mantissa / 10 ^ scale`, so `0.7` is `num 7 1`. -/
inductive Json where
  | str (s : String)
  | num (mantissa : Int) (scale : Nat)
  | bool (b : Bool)
  | arr (items : List Json)
  | obj (fields : List (String × Json))

/-- An outgoing HTTP request: what `http.NewRequestWithContext` and the
`Header.Set` calls build, plus the client timeout in seconds. -/
structure Request where
  method : String
  url : String
  header : List (String × String)
  body : Json
  timeout : Nat

/-- An HTTP response.  `StatusCode` is a natural number: net/http rejects a
status line whose code is negative or not three digits. -/
structure Response where
  StatusCode : Nat
  Body : String

/-- The collaborators of the provider clients that live outside the repository. -/
structure Net where
  /-- The error of `http.NewRequestWithContext` for a URL, `none` when it is built. -/
  newRequest : String → Option String
  /-- The result of `client.Do`: a transport error or a response. -/
  roundTrip : Request → Except String Response
  /-- Decoding a body into the OpenAI result: `choices[i].message.content`. -/
  decodeOpenAI : String → Except String (List String)
  /-- Decoding a body into the Ollama result: the `response` field. -/
  decodeOllama : String → Except String String
  /-- Decoding a body into the Gemini result: `candidates[i].content.parts[j].text`. -/
  decodeGemini : String → Except String (List (List String))

/-- What a call of `GenerateCommitMessage` does: it returns the Go pair
`(message, err)`, or it panics on an index out of range. -/
inductive GenOutcome where
  | ret (msg : String) (err : Option String)
  | panic
  deriving DecidableEq

/-- Go `Header.Set`: replace the values of a key. -/
def headerSet (h : List (String × String)) (k v : String) : List (String × String) :=
  h.filter (fun kv => kv.1 != k) ++ [(k, v)]

/-- The values stored under a key of a header. -/
def headerValues (h : List (String × String)) (k : String) : List String :=
  (h.filter (fun kv => kv.1 == k)).map (fun kv => kv.2)

/-- The struct `OpenAIClient`. -/
structure OpenAIClient where
  apiKey : String
  model : String
  baseURL : String
  deriving DecidableEq

/-- The function `NewOpenAIClient`. -/
def NewOpenAIClient (apiKey model baseURL : String) : OpenAIClient :=
  let model := if model = "" then "gpt-3.5-turbo" else model
  let baseURL := if baseURL = "" then "https://api.openai.com/v1/chat/completions" else baseURL
  { apiKey := apiKey, model := model, baseURL := baseURL }

/-- The map `reqBody` of `OpenAIClient.GenerateCommitMessage`. -/
def OpenAIClient.reqBody (c : OpenAIClient) (diff : String) : Json :=
  .obj [
    ("model", .str c.model),
    ("messages", .arr [
      .obj [("role", .str "system"), ("content", .str SystemPrompt)],
      .obj [("role", .str "user"), ("content", .str diff)]]),
    ("temperature", .num 7 1)]

/-- The request `OpenAIClient.GenerateCommitMessage` hands to `client.Do`,
or the error of `http.NewRequestWithContext`. -/
def OpenAIClient.buildRequest (n : Net) (c : OpenAIClient) (diff : String) :
    Except String Request :=
  let reqBody := c.reqBody diff
  match n.newRequest c.baseURL with
  | some err => .error err
  | none =>
    let header := headerSet [] "Content-Type" "application/json"
    let header :=
      if c.apiKey ≠ "" then headerSet header "Authorization" ("Bearer " ++ c.apiKey)
      else header
    .ok { method := "POST", url := c.baseURL, header := header, body := reqBody, timeout := 30 }

/-- The status error text of the OpenAI client. -/
def openAIStatusError (status : Nat) (body : String) : String :=
  "API error (status " ++ toString status ++ "): " ++ body

/-- The method `OpenAIClient.GenerateCommitMessage`. -/
def OpenAIClient.GenerateCommitMessage (n : Net) (c : OpenAIClient) (diff : String) :
    GenOutcome :=
  match c.buildRequest n diff with
  | .error err => .ret "" (some err)
  | .ok req =>
    match n.roundTrip req with
    | .error err => .ret "" (some err)
    | .ok resp =>
      if resp.StatusCode ≠ 200 then
        .ret "" (some (openAIStatusError resp.StatusCode resp.Body))
      else
        match n.decodeOpenAI resp.Body with
        | .error err => .ret "" (some err)
        | .ok choices =>
          if choices.length = 0 then .ret "" (some "no response from API")
          else
            match choices[0]? with
            | none => .panic
            | some content => .ret (TrimSpace content) none

/-- The struct `OllamaClient`. -/
structure OllamaClient where
  endpoint : String
  model : String
  deriving DecidableEq

/-- The function `NewOllamaClient`. -/
def NewOllamaClient (endpoint model : String) : OllamaClient :=
  let endpoint :=
    if endpoint = "" then "http://localhost:11434/api/generate"
    else if !HasSuffix endpoint "/api/generate" then
      TrimRight endpoint "/" ++ "/api/generate"
    else endpoint
  let model := if model = "" then "mistral" else model
  { endpoint := endpoint, model := model }

/-- The map `reqBody` of `OllamaClient.GenerateCommitMessage`. -/
def OllamaClient.reqBody (c : OllamaClient) (diff : String) : Json :=
  .obj [
    ("model", .str c.model),
    ("prompt", .str diff),
    ("system", .str SystemPrompt),
    ("stream", .bool false)]

/-- The request `OllamaClient.GenerateCommitMessage` hands to `client.Do`. -/
def OllamaClient.buildRequest (n : Net) (c : OllamaClient) (diff : String) :
    Except String Request :=
  let reqBody := c.reqBody diff
  match n.newRequest c.endpoint with
  | some err => .error err
  | none =>
    let header := headerSet [] "Content-Type" "application/json"
    .ok { method := "POST", url := c.endpoint, header := header, body := reqBody, timeout := 60 }

/-- The status error text of the Ollama client. -/
def ollamaStatusError (body : String) : String :=
  "ollama API error: " ++ body

/-- The method `OllamaClient.GenerateCommitMessage`. -/
def OllamaClient.GenerateCommitMessage (n : Net) (c : OllamaClient) (diff : String) :
    GenOutcome :=
  match c.buildRequest n diff with
  | .error err => .ret "" (some err)
  | .ok req =>
    match n.roundTrip req with
    | .error err => .ret "" (some err)
    | .ok resp =>
      if resp.StatusCode ≠ 200 then
        .ret "" (some (ollamaStatusError resp.Body))
      else
        match n.decodeOllama resp.Body with
        | .error err => .ret "" (some err)
        | .ok response => .ret (TrimSpace response) none

/-- The struct `GeminiClient`. -/
structure GeminiClient where
  apiKey : String
  model : String
  deriving DecidableEq

/-- The function `NewGeminiClient`. -/
def NewGeminiClient (apiKey model : String) : GeminiClient :=
  let model := if model = "" then "gemini-pro" else model
  { apiKey := apiKey, model := model }

/-- The variable `url` of `GeminiClient.GenerateCommitMessage`. -/
def GeminiClient.url (c : GeminiClient) : String :=
  "https://generativelanguage.googleapis.com/v1beta/models/" ++ c.model ++
    ":generateContent?key=" ++ c.apiKey

/-- The map `reqBody` of `GeminiClient.GenerateCommitMessage`. -/
def GeminiClient.reqBody (_c : GeminiClient) (diff : String) : Json :=
  .obj [
    ("contents", .arr [
      .obj [("parts", .arr [
        .obj [("text", .str (SystemPrompt ++ "\n\nDiff:\n" ++ diff))]])]]),
    ("generationConfig", .obj [("temperature", .num 7 1)])]

/-- The request `GeminiClient.GenerateCommitMessage` hands to `client.Do`. -/
def GeminiClient.buildRequest (n : Net) (c : GeminiClient) (diff : String) :
    Except String Request :=
  let url := c.url
  let reqBody := c.reqBody diff
  match n.newRequest url with
  | some err => .error err
  | none =>
    let header := headerSet [] "Content-Type" "application/json"
    .ok { method := "POST", url := url, header := header, body := reqBody, timeout := 30 }

/-- The status error text of the Gemini client. -/
def geminiStatusError (status : Nat) (body : String) : String :=
  "Gemini API error (status " ++ toString status ++ "): " ++ body

/-- The method `GeminiClient.GenerateCommitMessage`.  The guard
`len(Candidates) == 0 || len(Candidates[0].Content.Parts) == 0` short-circuits,
so its second operand is evaluated, and indexes, only when the first is false. -/
def GeminiClient.GenerateCommitMessage (n : Net) (c : GeminiClient) (diff : String) :
    GenOutcome :=
  match c.buildRequest n diff with
  | .error err => .ret "" (some err)
  | .ok req =>
    match n.roundTrip req with
    | .error err => .ret "" (some err)
    | .ok resp =>
      if resp.StatusCode ≠ 200 then
        .ret "" (some (geminiStatusError resp.StatusCode resp.Body))
      else
        match n.decodeGemini resp.Body with
        | .error err => .ret "" (some err)
        | .ok candidates =>
          if candidates.length = 0 then .ret "" (some "no response content from Gemini")
          else
            match candidates[0]? with
            | none => .panic
            | some parts =>
              if parts.length = 0 then .ret "" (some "no response content from Gemini")
              else
                match parts[0]? with
                | none => .panic
                | some text => .ret (TrimSpace text) none

/-- The interface `LLMEngine` with its three implementations. -/
inductive LLMEngine where
  | openai (c : OpenAIClient)
  | ollama (c : OllamaClient)
  | gemini (c : GeminiClient)
  deriving DecidableEq

/-- Dynamic dispatch of `GenerateCommitMessage` on an `LLMEngine` value. -/
def LLMEngine.GenerateCommitMessage (n : Net) (e : LLMEngine) (diff : String) : GenOutcome :=
  match e with
  | .openai c => c.GenerateCommitMessage n diff
  | .ollama c => c.GenerateCommitMessage n diff
  | .gemini c => c.GenerateCommitMessage n diff

/-- The function `NewEngine`; `getString` is `viper.GetString`. -/
def NewEngine (getString : String → String) : Except String LLMEngine :=
  let provider := getString "ai.provider"
  if provider = "openai" then
    .ok (.openai (NewOpenAIClient (getString "ai.openai_api_key") (getString "ai.openai_model")
      "https://api.openai.com/v1/chat/completions"))
  else if provider = "openai-compatible" then
    .ok (.openai (NewOpenAIClient (getString "ai.openai_api_key") (getString "ai.openai_model")
      (getString "ai.openai_base_url")))
  else if provider = "ollama" then
    .ok (.ollama (NewOllamaClient (getString "ai.ollama_endpoint") (getString "ai.ollama_model")))
  else if provider = "gemini" then
    .ok (.gemini (NewGeminiClient (getString "ai.gemini_api_key") (getString "ai.gemini_model")))
  else
    .error ("unsupported provider: " ++ provider)

/-! ## Package `internal/git` -/

/-- The outcome of `cmd.Run()` for a subprocess: its error (`none` for exit
status 0) and the combined standard output and error. -/
structure ExecResult where
  err : Option String
  out : String

/-- The function `GetStagedDiff`; `exec` runs a command line. -/
def GetStagedDiff (exec : List String → ExecResult) : String × Option String :=
  let r := exec ["git", "diff", "--staged"]
  match r.err with
  | some err => ("", some ("git error: " ++ err ++ ", output: " ++ r.out))
  | none => (TrimSpace r.out, none)

/-- The command line `Commit` runs for a message. -/
def commitArgv (message : String) : List String :=
  ["git", "commit", "-m", message]

/-- The function `Commit`. -/
def Commit (exec : List String → ExecResult) (message : String) : Option String :=
  let r := exec (commitArgv message)
  match r.err with
  | some err => some ("git commit error: " ++ err ++ ", output: " ++ r.out)
  | none => none

/-- The function `IsGitRepo`. -/
def IsGitRepo (exec : List String → ExecResult) : Bool :=
  match (exec ["git", "rev-parse", "--is-inside-work-tree"]).err with
  | some _ => false
  | none => true

/-! ## Package `cmd` -/

/-- A message delivered to `model.Update`: a key press (by its `String()`),
the `generationResult` sent by the generating goroutine, a spinner tick, or
any other message of the framework. -/
inductive Msg where
  | KeyMsg (key : String)
  | generationResult (msg : String) (err : Option String)
  | TickMsg
  | other

/-- The command returned by `model.Update`. -/
inductive Cmd where
  | nil
  | Quit
  | Tick
  deriving DecidableEq

/-- The struct `model`; the spinner is reduced to its frame counter. -/
structure model where
  spinner : Nat
  loading : Bool
  msg : String
  err : Option String
  deriving DecidableEq

/-- The function `initialModel`. -/
def initialModel : model :=
  { spinner := 0, loading := true, msg := "", err := none }

/-- The method `model.Update`. -/
def model.Update (m : model) (msg : Msg) : model × Cmd :=
  match msg with
  | .KeyMsg key => if key = "ctrl+c" then (m, .Quit) else (m, .nil)
  | .generationResult msg err => ({ m with loading := false, msg := msg, err := err }, .Quit)
  | .TickMsg => ({ m with spinner := m.spinner + 1 }, .Tick)
  | .other => (m, .nil)

/-- The event loop of `p.Run()`: messages go to `Update` in order and the
loop returns the model of the first update that answers `tea.Quit`. -/
def programRun (m : model) : List Msg → model
  | [] => m
  | x :: xs =>
    match m.Update x with
    | (m1, .Quit) => m1
    | (m1, _) => programRun m1 xs

/-- Go `bufio.Reader.ReadString` with delimiter line feed, on a list of
characters: the text up to and including the first line feed, and the rest. -/
def readLine : List Char → List Char × List Char
  | [] => ([], [])
  | c :: cs =>
    if c = Char.ofNat 10 then ([c], cs)
    else ((c :: (readLine cs).1), (readLine cs).2)

/-- Go `reader.ReadString` on the unread standard input; the error of a
read that meets the end of input is dropped, as `Run` drops it. -/
def ReadString (input : String) : String × String :=
  (⟨(readLine input.data).1⟩, ⟨(readLine input.data).2⟩)

/-- A call made by `generateCmd.Run`, in the order of the run.  Printed text
is recorded without its terminal styling. -/
inductive Call where
  | IsGitRepo
  | GetStagedDiff
  | NewEngine
  | GenerateCommitMessage (diff : String)
  | Println (text : String)
  | Print (text : String)
  | ReadString
  | Commit (message : String)
  | panic
  deriving DecidableEq

/-- Everything outside the repository that a run depends on. -/
structure World where
  /-- Running a subprocess (os/exec). -/
  exec : List String → ExecResult
  /-- Reading a configuration key (`viper.GetString`). -/
  getString : String → String
  /-- The HTTP and JSON collaborators of the provider clients. -/
  net : Net
  /-- The case tables of package `unicode` above ASCII. -/
  lowerTable : Char → Char
  /-- The error of `p.Run()`, `none` when the program ran. -/
  programErr : Option String

/-- Lines 63 to 98 of `generateCmd.Run`: show the message, read the answer,
commit or abort.  `stdin` is the unread standard input. -/
def confirmAndCommit (w : World) (commitMsg : String) (stdin : String) : List Call :=
  let response := (ReadString stdin).1
  let response := TrimSpace (ToLower w.lowerTable response)
  [.Println commitMsg, .Print "\nCommit with this message? (y/n/e[dit]): ", .ReadString] ++
  if response = "y" then
    .Commit commitMsg ::
      match Commit w.exec commitMsg with
      | some err => [.Println ("Commit failed: " ++ err)]
      | none => [.Println "Commit successful!"]
  else if response = "e" then
    let newMsg := (ReadString (ReadString stdin).2).1
    let newMsg := TrimSpace newMsg
    [.Print "Enter new commit message: ", .ReadString] ++
    if newMsg = "" then [.Println "Commit aborted (empty message)."]
    else
      .Commit newMsg ::
        match Commit w.exec newMsg with
        | some err => [.Println ("Commit failed: " ++ err)]
        | none => [.Println "Commit successful!"]
  else [.Println "Commit aborted."]

/-- The function `Run` of `generateCmd`.  `ui` is the sequence of messages the
spinner program receives before the goroutine sends its `generationResult`. -/
def Run (w : World) (ui : List Msg) (stdin : String) : List Call :=
  .IsGitRepo ::
  if IsGitRepo w.exec = false then [.Println "Error: Not a git repository"]
  else
    .GetStagedDiff ::
    match GetStagedDiff w.exec with
    | (_, some err) => [.Println ("Error getting diff: " ++ err)]
    | (diff, none) =>
      if diff = "" then [.Println "No staged changes found. Run 'git add' first."]
      else
        .NewEngine ::
        match NewEngine w.getString with
        | .error err => [.Println ("Error initializing AI engine: " ++ err)]
        | .ok engine =>
          .GenerateCommitMessage diff ::
          match engine.GenerateCommitMessage w.net diff with
          | .panic => [.panic]
          | .ret msg err =>
            match w.programErr with
            | some e => [.Println ("Error running spinner: " ++ e)]
            | none =>
              let m := programRun initialModel (ui ++ [.generationResult msg err])
              match m.err with
              | some e => [.Println ("Error generating message: " ++ e)]
              | none => confirmAndCommit w m.msg stdin

/-- The messages passed to `git.Commit` in a run. -/
def commits (t : List Call) : List String :=
  t.filterMap (fun c => match c with | .Commit m => some m | _ => none)

/-! ## A concrete world for the examples -/

/-- A subprocess runner in a repository with one staged change. -/
def demoExec (argv : List String) : ExecResult :=
  if argv = ["git", "diff", "--staged"] then { err := none, out := "+line\n" }
  else { err := none, out := "" }

/-- A response body that holds one generated message in the field each
provider reads: `response`, `choices[0].message.content` and
`candidates[0].content.parts[0].text`. -/
def demoBody : String :=
  "\x7b\"response\":\" feat: add line \"," ++
  "\"choices\":[\x7b\"message\":\x7b\"content\":\" feat: add line \"\x7d\x7d]," ++
  "\"candidates\":[\x7b\"content\":\x7b\"parts\":[\x7b\"text\":\" feat: add line \"\x7d]\x7d\x7d]\x7d"

/-- A response body whose `choices` and `candidates` arrays are empty. -/
def emptyBody : String :=
  "\x7b\"choices\":[],\"candidates\":[]\x7d"

/-- A provider that answers every request with status 200 and `demoBody`;
the decoders read `demoBody` as the message ` feat: add line ` and reject
any other text. -/
def demoNet : Net where
  newRequest := fun _ => none
  roundTrip := fun _ => .ok { StatusCode := 200, Body := demoBody }
  decodeOpenAI := fun b =>
    if b = demoBody then .ok [" feat: add line "] else .error "invalid JSON"
  decodeOllama := fun b =>
    if b = demoBody then .ok " feat: add line " else .error "invalid JSON"
  decodeGemini := fun b =>
    if b = demoBody then .ok [[" feat: add line "]] else .error "invalid JSON"

/-- A world configured for the local provider. -/
def demoWorld : World where
  exec := demoExec
  getString := fun k => if k = "ai.provider" then "ollama" else ""
  net := demoNet
  lowerTable := fun c => c
  programErr := none

/-- A world of a repository with nothing staged. -/
def cleanWorld : World where
  exec := fun _ => { err := none, out := "" }
  getString := fun k => if k = "ai.provider" then "ollama" else ""
  net := demoNet
  lowerTable := fun c => c
  programErr := none

/-- A provider that answers every request with the given status and body;
the decoders read `emptyBody` as empty arrays and an absent `response`, and
reject any other text. -/
def statusNet (status : Nat) (body : String) : Net where
  newRequest := fun _ => none
  roundTrip := fun _ => .ok { StatusCode := status, Body := body }
  decodeOpenAI := fun b => if b = emptyBody then .ok [] else .error "invalid JSON"
  decodeOllama := fun b => if b = emptyBody then .ok "" else .error "invalid JSON"
  decodeGemini := fun b => if b = emptyBody then .ok [] else .error "invalid JSON"

/-- A subprocess runner like `demoExec` in which `git commit` fails, as it
does when a hook rejects the commit. -/
def rejectingExec (argv : List String) : ExecResult :=
  if argv = ["git", "diff", "--staged"] then { err := none, out := "+line\n" }
  else if argv.take 2 = ["git", "commit"] then
    { err := some "exit status 1", out := "hook failed\n" }
  else { err := none, out := "" }

/-- The world `demoWorld` with `git commit` failing. -/
def rejectingWorld : World where
  exec := rejectingExec
  getString := fun k => if k = "ai.provider" then "ollama" else ""
  net := demoNet
  lowerTable := fun c => c
  programErr := none

/-- Whether one of the messages ends the spinner program: the interrupt key,
or a `generationResult` (the goroutine of `Run` sends the only one, after the
messages of `ui`, so a run has none inside `ui`). -/
def endsEarly (ui : List Msg) : Bool :=
  ui.any (fun x =>
    match x with
    | .KeyMsg key => key == "ctrl+c"
    | .generationResult _ _ => true
    | _ => false)

/-! ## The request shapes of the specification, section 4.2 -/

/-- Hosted chat shape: model, a system and a user message, temperature 0.7. -/
def Spec.hostedChatBody (model diff : String) : Json :=
  .obj [("model", .str model),
        ("messages", .arr [.obj [("role", .str "system"), ("content", .str SystemPrompt)],
                           .obj [("role", .str "user"), ("content", .str diff)]]),
        ("temperature", .num 7 1)]

/-- Local generation shape: model, prompt, system, stream false. -/
def Spec.localGenerationBody (model diff : String) : Json :=
  .obj [("model", .str model), ("prompt", .str diff), ("system", .str SystemPrompt),
        ("stream", .bool false)]

/-- Multi-part content shape: one content with one text part, temperature 0.7. -/
def Spec.multiPartBody (diff : String) : Json :=
  .obj [("contents", .arr [.obj [("parts", .arr [.obj [("text",
          .str (SystemPrompt ++ "\n\nDiff:\n" ++ diff))]])]]),
        ("generationConfig", .obj [("temperature", .num 7 1)])]

/-- The configured model, or the default of the variant when it is empty. -/
def Spec.modelOr (dflt model : String) : String :=
  if model = "" then dflt else model

/-! ## Lemmas on strings -/

theorem data_append (a b : String) : (a ++ b).data = a.data ++ b.data := rfl

theorem HasSuffix_append (a b : String) : HasSuffix (a ++ b) b = true := by
  simp [HasSuffix, data_append]

theorem rdropWhile_append_rtakeWhile {α : Type} (p : α → Bool) (l : List α) :
    l.rdropWhile p ++ l.rtakeWhile p = l := by
  unfold List.rdropWhile List.rtakeWhile
  rw [← List.reverse_append, List.takeWhile_append_dropWhile, List.reverse_reverse]

theorem TrimRight_slash_decomp (e : String) :
    ∃ k, e = TrimRight e "/" ++ ⟨List.replicate k '/'⟩ := by
  refine ⟨(e.data.rtakeWhile (fun c => "/".data.contains c)).length, ?_⟩
  apply String.ext
  have h := rdropWhile_append_rtakeWhile (fun c => "/".data.contains c) e.data
  have h2 : e.data.rtakeWhile (fun c => "/".data.contains c)
      = List.replicate (e.data.rtakeWhile (fun c => "/".data.contains c)).length '/' := by
    rw [List.eq_replicate_iff]
    refine ⟨rfl, fun b hb => ?_⟩
    have := List.mem_rtakeWhile_imp hb
    simpa using this
  show e.data = (e.data.rdropWhile _) ++ List.replicate _ '/'
  rw [← h2, h]

theorem TrimRight_slash_no_slash (e : String) : HasSuffix (TrimRight e "/") "/" = false := by
  by_contra hc
  have hs : HasSuffix (TrimRight e "/") "/" = true := by simpa using hc
  simp only [HasSuffix, TrimRight, List.isSuffixOf_iff_suffix] at hs
  obtain ⟨t, ht⟩ := hs
  have hne : e.data.rdropWhile (fun c => "/".data.contains c) ≠ [] := by
    rw [← ht]; simp
  have hl := List.rdropWhile_last_not (fun c => "/".data.contains c) e.data hne
  apply hl
  have key : ∀ (l : List Char) (h : l ≠ []), t ++ ['/'] = l → l.getLast h = '/' := by
    intro l h hl
    subst hl
    simp
  rw [key _ hne ht]; decide

/-! ## Engine selector and constructors -/

/-- C3. `NewOllamaClient` endpoint defaulting: the empty endpoint becomes the
loopback default; a non-empty endpoint that ends with `/api/generate` is kept;
any other endpoint loses its trailing slashes (what is removed is slashes
only, and what is left does not end with a slash) and gets `/api/generate`
appended; so the effective endpoint always ends with `/api/generate`. -/
theorem NewOllamaClient_endpoint (e m : String) :
    (NewOllamaClient "" m).endpoint = "http://localhost:11434/api/generate" ∧
    (e ≠ "" → HasSuffix e "/api/generate" = true → (NewOllamaClient e m).endpoint = e) ∧
    (e ≠ "" → HasSuffix e "/api/generate" = false →
      (NewOllamaClient e m).endpoint = TrimRight e "/" ++ "/api/generate") ∧
    HasSuffix (NewOllamaClient e m).endpoint "/api/generate" = true ∧
    (∃ k, e = TrimRight e "/" ++ ⟨List.replicate k '/'⟩) ∧
    HasSuffix (TrimRight e "/") "/" = false := by
  refine ⟨rfl, ?_, ?_, ?_, TrimRight_slash_decomp e, TrimRight_slash_no_slash e⟩
  · intro h1 h2
    simp [NewOllamaClient, h1, h2]
  · intro h1 h2
    simp [NewOllamaClient, h1, h2]
  · by_cases h1 : e = ""
    · subst h1; rfl
    · cases h2 : HasSuffix e "/api/generate"
      · simp only [NewOllamaClient, h1, h2, if_false, Bool.not_false, if_true]
        exact HasSuffix_append _ _
      · simp [NewOllamaClient, h1, h2]

/-- C3, at the endpoints of the specification: `http://host:1234` gets the
path appended and `http://host:1234/api/generate` is unchanged. -/
theorem NewOllamaClient_endpoint_witness :
    (NewOllamaClient "http://host:1234" "").endpoint = "http://host:1234/api/generate" ∧
    (NewOllamaClient "http://host:1234/api/generate" "").endpoint
      = "http://host:1234/api/generate" ∧
    (NewOllamaClient "http://host:1234///" "").endpoint = "http://host:1234/api/generate" :=
  ⟨((NewOllamaClient_endpoint "http://host:1234" "").2.2.1 (by decide) (by decide)).trans
      (by decide),
   (NewOllamaClient_endpoint "http://host:1234/api/generate" "").2.1 (by decide) (by decide),
   ((NewOllamaClient_endpoint "http://host:1234///" "").2.2.1 (by decide) (by decide)).trans
      (by decide)⟩

/-- C4. `NewEngine` fails exactly when the provider is none of the four
recognized values; the error then is `unsupported provider: ` followed by the
offending value and no client is returned; each recognized value yields a
client of its variant, built from whatever the other keys hold. -/
theorem NewEngine_selects (cfg : String → String) :
    ((∃ err, NewEngine cfg = .error err) ↔
      cfg "ai.provider" ∉ ["openai", "openai-compatible", "ollama", "gemini"]) ∧
    (cfg "ai.provider" ∉ ["openai", "openai-compatible", "ollama", "gemini"] →
      NewEngine cfg = .error ("unsupported provider: " ++ cfg "ai.provider") ∧
      HasSuffix ("unsupported provider: " ++ cfg "ai.provider") (cfg "ai.provider") = true) ∧
    (cfg "ai.provider" = "openai" →
      NewEngine cfg = .ok (.openai (NewOpenAIClient (cfg "ai.openai_api_key")
        (cfg "ai.openai_model") "https://api.openai.com/v1/chat/completions"))) ∧
    (cfg "ai.provider" = "openai-compatible" →
      NewEngine cfg = .ok (.openai (NewOpenAIClient (cfg "ai.openai_api_key")
        (cfg "ai.openai_model") (cfg "ai.openai_base_url")))) ∧
    (cfg "ai.provider" = "ollama" →
      NewEngine cfg = .ok (.ollama (NewOllamaClient (cfg "ai.ollama_endpoint")
        (cfg "ai.ollama_model")))) ∧
    (cfg "ai.provider" = "gemini" →
      NewEngine cfg = .ok (.gemini (NewGeminiClient (cfg "ai.gemini_api_key")
        (cfg "ai.gemini_model")))) := by
  refine ⟨?_, ?_, ?_, ?_, ?_, ?_⟩
  · by_cases h1 : cfg "ai.provider" = "openai"
    · simp [NewEngine, h1]
    · by_cases h2 : cfg "ai.provider" = "openai-compatible"
      · simp [NewEngine, h2]
      · by_cases h3 : cfg "ai.provider" = "ollama"
        · simp [NewEngine, h3]
        · by_cases h4 : cfg "ai.provider" = "gemini"
          · simp [NewEngine, h4]
          · simp [NewEngine, h1, h2, h3, h4]
  · intro h
    simp only [List.mem_cons, List.mem_singleton, List.not_mem_nil, or_false, not_or] at h
    obtain ⟨h1, h2, h3, h4⟩ := h
    exact ⟨by simp [NewEngine, h1, h2, h3, h4], HasSuffix_append _ _⟩
  · intro h; simp [NewEngine, h]
  · intro h; simp [NewEngine, h]
  · intro h; simp [NewEngine, h]
  · intro h; simp [NewEngine, h]

/-- C4, at the discriminator `bogus`: the error names it. -/
theorem NewEngine_selects_witness :
    NewEngine (fun k => if k = "ai.provider" then "bogus" else "")
      = .error "unsupported provider: bogus" :=
  ((NewEngine_selects (fun k => if k = "ai.provider" then "bogus" else "")).2.1
    (by decide)).1

/-! ## Requests -/

/-- C10. The request body of each variant has the shape of the
specification, with the configured model or the default of the variant; the
Gemini model goes into the URL; and the request handed to the HTTP client
carries that body. -/
theorem request_body_shapes (n : Net) (apiKey model url endpoint diff : String) :
    (NewOpenAIClient apiKey model url).reqBody diff
      = Spec.hostedChatBody (Spec.modelOr "gpt-3.5-turbo" model) diff ∧
    (NewOllamaClient endpoint model).reqBody diff
      = Spec.localGenerationBody (Spec.modelOr "mistral" model) diff ∧
    (NewGeminiClient apiKey model).reqBody diff = Spec.multiPartBody diff ∧
    (NewGeminiClient apiKey model).url
      = "https://generativelanguage.googleapis.com/v1beta/models/" ++
          Spec.modelOr "gemini-pro" model ++ ":generateContent?key=" ++ apiKey ∧
    (∀ req, (NewOpenAIClient apiKey model url).buildRequest n diff = .ok req →
      req.body = Spec.hostedChatBody (Spec.modelOr "gpt-3.5-turbo" model) diff) ∧
    (∀ req, (NewOllamaClient endpoint model).buildRequest n diff = .ok req →
      req.body = Spec.localGenerationBody (Spec.modelOr "mistral" model) diff) ∧
    (∀ req, (NewGeminiClient apiKey model).buildRequest n diff = .ok req →
      req.body = Spec.multiPartBody diff ∧ req.url = (NewGeminiClient apiKey model).url) := by
  refine ⟨rfl, rfl, rfl, rfl, ?_, ?_, ?_⟩
  · intro req h
    unfold OpenAIClient.buildRequest at h
    split at h
    · cases h
    · cases h; rfl
  · intro req h
    unfold OllamaClient.buildRequest at h
    split at h
    · cases h
    · cases h; rfl
  · intro req h
    unfold GeminiClient.buildRequest at h
    dsimp only at h
    split at h
    · cases h
    · cases h; exact ⟨rfl, rfl⟩

/-- C10, for clients without a configured model: the defaults appear in the
body sent by the OpenAI client and in the URL of the Gemini client. -/
theorem request_body_shapes_witness :
    (∃ req, (NewOpenAIClient "" "" "").buildRequest demoNet "+line" = .ok req ∧
      req.body = Spec.hostedChatBody "gpt-3.5-turbo" "+line") ∧
    (NewGeminiClient "k" "").url
      = "https://generativelanguage.googleapis.com/v1beta/models/gemini-pro:generateContent?key=k" :=
  ⟨⟨_, rfl, (request_body_shapes demoNet "" "" "" "" "+line").2.2.2.2.1 _ rfl⟩,
   (request_body_shapes demoNet "k" "" "" "" "+line").2.2.2.1⟩

/-- C5, as stated, fails: with an empty `apiKey` the built request has the
content type as its only header, so no `Authorization` header, and in
particular not one with an empty bearer token. -/
theorem empty_key_sends_no_authorization :
    ∃ req, (NewOpenAIClient "" "" "").buildRequest demoNet "+line" = .ok req ∧
      req.header = [("Content-Type", "application/json")] ∧
      headerValues req.header "Authorization" = [] ∧
      headerValues req.header "Authorization" ≠ ["Bearer "] :=
  ⟨_, rfl, by decide, by decide, by decide⟩

/-- C5, amended. Whenever `http.NewRequestWithContext` accepts the base URL,
`OpenAIClient.GenerateCommitMessage` builds its request whatever the `apiKey`
and hands it to the HTTP client (a transport error is what it returns); with
an empty `apiKey` the request has no `Authorization` header, with a non-empty
one the header is exactly `Bearer ` followed by the key. -/
theorem OpenAI_authorization_header (n : Net) (c : OpenAIClient) (diff : String)
    (h : n.newRequest c.baseURL = none) :
    ∃ req, c.buildRequest n diff = .ok req ∧ req.url = c.baseURL ∧
      headerValues req.header "Content-Type" = ["application/json"] ∧
      headerValues req.header "Authorization"
        = (if c.apiKey = "" then [] else ["Bearer " ++ c.apiKey]) ∧
      (∀ e, n.roundTrip req = .error e → c.GenerateCommitMessage n diff = .ret "" (some e)) := by
  by_cases hk : c.apiKey = ""
  · refine ⟨_, by simp only [OpenAIClient.buildRequest, h]; rfl, rfl, ?_, ?_, ?_⟩
    · simp [hk, headerSet, headerValues]
    · simp [hk, headerSet, headerValues]
    · intro e he
      simp only [OpenAIClient.GenerateCommitMessage, OpenAIClient.buildRequest, h]
      rw [he]
  · refine ⟨_, by simp only [OpenAIClient.buildRequest, h]; rfl, rfl, ?_, ?_, ?_⟩
    · simp [hk, headerSet, headerValues]
    · simp [hk, headerSet, headerValues]
    · intro e he
      simp only [OpenAIClient.GenerateCommitMessage, OpenAIClient.buildRequest, h]
      rw [he]

/-- C5, amended, at the key `sk-1`: the header is `Bearer sk-1`. -/
theorem OpenAI_authorization_header_witness :
    ∃ req, (NewOpenAIClient "sk-1" "" "").buildRequest demoNet "+line" = .ok req ∧
      headerValues req.header "Authorization" = ["Bearer sk-1"] := by
  obtain ⟨req, h1, _, _, h4, _⟩ :=
    OpenAI_authorization_header demoNet (NewOpenAIClient "sk-1" "" "") "+line" rfl
  exact ⟨req, h1, h4.trans (by decide)⟩

/-! ## Responses -/

theorem Contains_of_data (s sub : String) (a c : List Char)
    (h : s.data = a ++ (sub.data ++ c)) : Contains s sub = true := by
  simp only [Contains, List.any_eq_true, List.mem_tails]
  exact ⟨sub.data ++ c, ⟨a, h.symm⟩, by simp⟩

/-- The status errors of the OpenAI and Gemini clients carry the status code
and the body; the one of the Ollama client carries the body only and is the
same text for every status. -/
theorem status_error_texts (status : Nat) (body : String) :
    Contains (openAIStatusError status body) (toString status) = true ∧
    Contains (openAIStatusError status body) body = true ∧
    Contains (geminiStatusError status body) (toString status) = true ∧
    Contains (geminiStatusError status body) body = true ∧
    Contains (ollamaStatusError body) body = true := by
  refine ⟨?_, ?_, ?_, ?_, ?_⟩
  · exact Contains_of_data _ _ "API error (status ".data ("): ".data ++ body.data)
      (by simp [openAIStatusError, data_append])
  · exact Contains_of_data _ _ ("API error (status ".data ++ (toString status).data ++ "): ".data)
      [] (by simp [openAIStatusError, data_append])
  · exact Contains_of_data _ _ "Gemini API error (status ".data ("): ".data ++ body.data)
      (by simp [geminiStatusError, data_append])
  · exact Contains_of_data _ _
      ("Gemini API error (status ".data ++ (toString status).data ++ "): ".data)
      [] (by simp [geminiStatusError, data_append])
  · exact Contains_of_data _ _ "ollama API error: ".data []
      (by simp [ollamaStatusError, data_append])

/-- A response with a status other than 200 makes each client return its
status error and the empty message. -/
theorem status_error_returned (n : Net) (diff : String) (req : Request) (resp : Response)
    (hr : n.roundTrip req = .ok resp) (hs : resp.StatusCode ≠ 200) :
    (∀ c : OpenAIClient, c.buildRequest n diff = .ok req →
      c.GenerateCommitMessage n diff
        = .ret "" (some (openAIStatusError resp.StatusCode resp.Body))) ∧
    (∀ c : OllamaClient, c.buildRequest n diff = .ok req →
      c.GenerateCommitMessage n diff = .ret "" (some (ollamaStatusError resp.Body))) ∧
    (∀ c : GeminiClient, c.buildRequest n diff = .ok req →
      c.GenerateCommitMessage n diff
        = .ret "" (some (geminiStatusError resp.StatusCode resp.Body))) := by
  refine ⟨?_, ?_, ?_⟩
  · intro c hb
    simp [OpenAIClient.GenerateCommitMessage, hb, hr, hs]
  · intro c hb
    simp [OllamaClient.GenerateCommitMessage, hb, hr, hs]
  · intro c hb
    simp [GeminiClient.GenerateCommitMessage, hb, hr, hs]

/-- C1, at the failing input. An Ollama response with status 500 and body
`boom` yields the error text `ollama API error: boom`, the same text as for
status 404, and that text does not carry `500`; the OpenAI and Gemini clients
put the code in their text on the same response. -/
theorem ollama_status_error_drops_code :
    (NewOllamaClient "" "").GenerateCommitMessage (statusNet 500 "boom") "+line"
      = .ret "" (some "ollama API error: boom") ∧
    (NewOllamaClient "" "").GenerateCommitMessage (statusNet 404 "boom") "+line"
      = .ret "" (some "ollama API error: boom") ∧
    Contains "ollama API error: boom" "500" = false ∧
    (NewOpenAIClient "" "" "").GenerateCommitMessage (statusNet 500 "boom") "+line"
      = .ret "" (some "API error (status 500): boom") ∧
    (NewGeminiClient "" "").GenerateCommitMessage (statusNet 500 "boom") "+line"
      = .ret "" (some "Gemini API error (status 500): boom") := by
  refine ⟨?_, ?_, ?_, ?_, ?_⟩ <;> decide

theorem head_ne_of_ne (s t : String) (h : s.data.head? ≠ t.data.head?) : s ≠ t := by
  intro e
  exact h (by rw [e])

/-- C6, as stated, fails on the success statuses other than 200: a response
with status 201 whose body decodes to empty `choices` and `candidates` arrays
makes the OpenAI and the Gemini client return their status error, not the
error for a response without content. -/
theorem created_status_is_status_error :
    (statusNet 201 emptyBody).decodeOpenAI emptyBody = .ok [] ∧
    (statusNet 201 emptyBody).decodeGemini emptyBody = .ok [] ∧
    (NewOpenAIClient "" "" "").GenerateCommitMessage (statusNet 201 emptyBody) "+line"
      = .ret "" (some (openAIStatusError 201 emptyBody)) ∧
    (NewOpenAIClient "" "" "").GenerateCommitMessage (statusNet 201 emptyBody) "+line"
      ≠ .ret "" (some "no response from API") ∧
    (NewGeminiClient "" "").GenerateCommitMessage (statusNet 201 emptyBody) "+line"
      = .ret "" (some (geminiStatusError 201 emptyBody)) ∧
    (NewGeminiClient "" "").GenerateCommitMessage (statusNet 201 emptyBody) "+line"
      ≠ .ret "" (some "no response content from Gemini") := by
  refine ⟨rfl, rfl, ?_, ?_, ?_, ?_⟩ <;> decide

/-- C6, amended. On a response with status 200, the one status the clients
take as success, that decodes, the OpenAI client returns
the error `no response from API` for an empty `choices` array and otherwise
the trimmed content of the first choice; the Gemini client returns the error
`no response content from Gemini` for an empty `candidates` array or a first
candidate without parts and otherwise the trimmed text of the first part of
the first candidate. These two texts differ from every status error text, and
no client ever indexes out of range. -/
theorem no_content_errors (n : Net) (diff : String) :
    (∀ (c : OpenAIClient) req resp choices, c.buildRequest n diff = .ok req →
      n.roundTrip req = .ok resp → resp.StatusCode = 200 →
      n.decodeOpenAI resp.Body = .ok choices →
      c.GenerateCommitMessage n diff =
        match choices with
        | [] => .ret "" (some "no response from API")
        | content :: _ => .ret (TrimSpace content) none) ∧
    (∀ (c : GeminiClient) req resp candidates, c.buildRequest n diff = .ok req →
      n.roundTrip req = .ok resp → resp.StatusCode = 200 →
      n.decodeGemini resp.Body = .ok candidates →
      c.GenerateCommitMessage n diff =
        match candidates with
        | [] => .ret "" (some "no response content from Gemini")
        | [] :: _ => .ret "" (some "no response content from Gemini")
        | (text :: _) :: _ => .ret (TrimSpace text) none) ∧
    (∀ status body,
      "no response from API" ≠ openAIStatusError status body ∧
      "no response from API" ≠ ollamaStatusError body ∧
      "no response from API" ≠ geminiStatusError status body ∧
      "no response content from Gemini" ≠ openAIStatusError status body ∧
      "no response content from Gemini" ≠ ollamaStatusError body ∧
      "no response content from Gemini" ≠ geminiStatusError status body) ∧
    (∀ c : OpenAIClient, c.GenerateCommitMessage n diff ≠ .panic) ∧
    (∀ c : OllamaClient, c.GenerateCommitMessage n diff ≠ .panic) ∧
    (∀ c : GeminiClient, c.GenerateCommitMessage n diff ≠ .panic) := by
  refine ⟨?_, ?_, ?_, ?_, ?_, ?_⟩
  · intro c req resp choices hb hr hs hd
    cases choices with
    | nil => simp [OpenAIClient.GenerateCommitMessage, hb, hr, hs, hd]
    | cons x xs => simp [OpenAIClient.GenerateCommitMessage, hb, hr, hs, hd]
  · intro c req resp candidates hb hr hs hd
    match candidates with
    | [] => simp [GeminiClient.GenerateCommitMessage, hb, hr, hs, hd]
    | [] :: _ => simp [GeminiClient.GenerateCommitMessage, hb, hr, hs, hd]
    | (t :: _) :: _ => simp [GeminiClient.GenerateCommitMessage, hb, hr, hs, hd]
  · intro status body
    refine ⟨?_, ?_, ?_, ?_, ?_, ?_⟩ <;> apply head_ne_of_ne <;>
      simp [openAIStatusError, ollamaStatusError, geminiStatusError, data_append]
  · intro c
    unfold OpenAIClient.GenerateCommitMessage
    repeat' split
    all_goals simp_all
  · intro c
    unfold OllamaClient.GenerateCommitMessage
    repeat' split
    all_goals simp_all
  · intro c
    unfold GeminiClient.GenerateCommitMessage
    repeat' split
    all_goals simp_all

/-- C6, amended, on three responses with status 200: a body with empty
arrays gives each hosted client its error for a response without content, a
body with a first candidate gives its trimmed text. -/
theorem no_content_errors_witness :
    (NewOpenAIClient "" "" "").GenerateCommitMessage (statusNet 200 emptyBody) "+line"
      = .ret "" (some "no response from API") ∧
    (NewGeminiClient "" "").GenerateCommitMessage (statusNet 200 emptyBody) "+line"
      = .ret "" (some "no response content from Gemini") ∧
    (NewGeminiClient "" "").GenerateCommitMessage demoNet "+line"
      = .ret "feat: add line" none :=
  ⟨(no_content_errors (statusNet 200 emptyBody) "+line").1 (NewOpenAIClient "" "" "") _ _ []
      rfl rfl rfl rfl,
   (no_content_errors (statusNet 200 emptyBody) "+line").2.1 (NewGeminiClient "" "") _ _ []
      rfl rfl rfl rfl,
   ((no_content_errors demoNet "+line").2.1 (NewGeminiClient "" "") _ _ [[" feat: add line "]]
      rfl rfl rfl rfl).trans (by decide)⟩

/-! ## The generate run -/

theorem programRun_delivers (msg : String) (err : Option String) (ui : List Msg) :
    ∀ m : model, endsEarly ui = false →
      (programRun m (ui ++ [.generationResult msg err])).msg = msg ∧
      (programRun m (ui ++ [.generationResult msg err])).err = err ∧
      (programRun m (ui ++ [.generationResult msg err])).loading = false := by
  induction ui with
  | nil => intro m _; simp [programRun, model.Update]
  | cons x xs ih =>
    intro m h
    cases x with
    | KeyMsg key =>
      have hk : key ≠ "ctrl+c" := by
        intro hk; simp [endsEarly, hk] at h
      have hx : endsEarly xs = false := by
        simpa [endsEarly, hk] using h
      simpa [programRun, model.Update, hk] using ih m hx
    | generationResult m2 e2 => simp [endsEarly] at h
    | TickMsg =>
      have hx : endsEarly xs = false := by simpa [endsEarly] using h
      simpa [programRun, model.Update] using ih _ hx
    | other =>
      have hx : endsEarly xs = false := by simpa [endsEarly] using h
      simpa [programRun, model.Update] using ih m hx

theorem Run_proposing (w : World) (ui : List Msg) (stdin d : String) (eng : LLMEngine)
    (msg : String) (hrepo : IsGitRepo w.exec = true) (hdiff : GetStagedDiff w.exec = (d, none))
    (hd : d ≠ "") (heng : NewEngine w.getString = .ok eng)
    (hgen : eng.GenerateCommitMessage w.net d = .ret msg none)
    (hprog : w.programErr = none) (hint : endsEarly ui = false) :
    Run w ui stdin = [.IsGitRepo, .GetStagedDiff, .NewEngine, .GenerateCommitMessage d] ++
      confirmAndCommit w msg stdin := by
  obtain ⟨h1, h2, _⟩ := programRun_delivers msg none ui initialModel hint
  simp only [Run, hrepo, hdiff, hd, heng, hgen, hprog, h1, h2]
  simp

theorem commits_confirmAndCommit (w : World) (m stdin : String) :
    commits (confirmAndCommit w m stdin) =
      (if TrimSpace (ToLower w.lowerTable (ReadString stdin).1) = "y" then [m]
       else if TrimSpace (ToLower w.lowerTable (ReadString stdin).1) = "e" then
         (if TrimSpace (ReadString (ReadString stdin).2).1 = "" then []
          else [TrimSpace (ReadString (ReadString stdin).2).1])
       else []) := by
  unfold confirmAndCommit
  dsimp only
  split_ifs <;> simp [commits] <;> split <;> simp

/-- C8. With an empty staged diff the run is the repository check, the diff
retrieval and the notice that nothing is staged: `NewEngine` is not called,
`GenerateCommitMessage` is not called and `git.Commit` is not called, whatever
the configuration, the provider, the spinner messages and the user input. -/
theorem empty_diff_no_changes (w : World) (ui : List Msg) (stdin : String)
    (hrepo : IsGitRepo w.exec = true) (hdiff : GetStagedDiff w.exec = ("", none)) :
    Run w ui stdin = [.IsGitRepo, .GetStagedDiff,
      .Println "No staged changes found. Run 'git add' first."] ∧
    Call.NewEngine ∉ Run w ui stdin ∧
    (∀ d, Call.GenerateCommitMessage d ∉ Run w ui stdin) ∧
    commits (Run w ui stdin) = [] := by
  have h : Run w ui stdin = [.IsGitRepo, .GetStagedDiff,
      .Println "No staged changes found. Run 'git add' first."] := by
    simp [Run, hrepo, hdiff]
  rw [h]
  exact ⟨rfl, by decide, fun d => by simp, rfl⟩

/-- C8, in a repository with nothing staged, with the user answering `y`. -/
theorem empty_diff_no_changes_witness :
    Run cleanWorld [.TickMsg] "y\n" = [.IsGitRepo, .GetStagedDiff,
      .Println "No staged changes found. Run 'git add' first."] :=
  (empty_diff_no_changes cleanWorld [.TickMsg] "y\n" (by decide) (by decide)).1

/-- C7. After a successful generation the messages passed to `git.Commit` are:
the proposed message when the trimmed, lower-cased first line is `y`; the
trimmed second line when the first is `e` and that second line is not blank;
none in every other case. The lines `Y` and ` y ` normalise to `y`, `E` to
`e`, while the empty line and `n` normalise to neither. -/
theorem interaction_decision (w : World) (ui : List Msg) (stdin d : String) (eng : LLMEngine)
    (msg : String) (hrepo : IsGitRepo w.exec = true) (hdiff : GetStagedDiff w.exec = (d, none))
    (hd : d ≠ "") (heng : NewEngine w.getString = .ok eng)
    (hgen : eng.GenerateCommitMessage w.net d = .ret msg none)
    (hprog : w.programErr = none) (hint : endsEarly ui = false) :
    commits (Run w ui stdin) =
      (if TrimSpace (ToLower w.lowerTable (ReadString stdin).1) = "y" then [msg]
       else if TrimSpace (ToLower w.lowerTable (ReadString stdin).1) = "e" then
         (if TrimSpace (ReadString (ReadString stdin).2).1 = "" then []
          else [TrimSpace (ReadString (ReadString stdin).2).1])
       else []) ∧
    (∀ tbl, TrimSpace (ToLower tbl (ReadString "Y\nrest").1) = "y" ∧
      TrimSpace (ToLower tbl (ReadString " y \n").1) = "y" ∧
      TrimSpace (ToLower tbl (ReadString "E\n").1) = "e" ∧
      TrimSpace (ToLower tbl (ReadString "\n").1) = "" ∧
      TrimSpace (ToLower tbl (ReadString "").1) = "" ∧
      TrimSpace (ToLower tbl (ReadString "n\n").1) = "n") := by
  refine ⟨?_, fun tbl => ⟨rfl, rfl, rfl, rfl, rfl, rfl⟩⟩
  rw [Run_proposing w ui stdin d eng msg hrepo hdiff hd heng hgen hprog hint]
  have h := commits_confirmAndCommit w msg stdin
  simpa [commits] using h

/-- C7, on four inputs: ` Y ` commits the proposed message, `e` followed by a
blank line commits nothing, `n` and the empty input commit nothing. -/
theorem interaction_decision_witness :
    commits (Run demoWorld [.TickMsg] " Y \n") = ["feat: add line"] ∧
    commits (Run demoWorld [.TickMsg] "e\n  \n") = [] ∧
    commits (Run demoWorld [.TickMsg] "n\n") = [] ∧
    commits (Run demoWorld [.TickMsg] "") = [] :=
  ⟨((interaction_decision demoWorld [.TickMsg] " Y \n" "+line" (.ollama (NewOllamaClient "" ""))
      "feat: add line" (by decide) (by decide) (by decide) rfl (by decide) rfl
      (by decide)).1).trans (by decide),
   ((interaction_decision demoWorld [.TickMsg] "e\n  \n" "+line" (.ollama (NewOllamaClient "" ""))
      "feat: add line" (by decide) (by decide) (by decide) rfl (by decide) rfl
      (by decide)).1).trans (by decide),
   ((interaction_decision demoWorld [.TickMsg] "n\n" "+line" (.ollama (NewOllamaClient "" ""))
      "feat: add line" (by decide) (by decide) (by decide) rfl (by decide) rfl
      (by decide)).1).trans (by decide),
   ((interaction_decision demoWorld [.TickMsg] "" "+line" (.ollama (NewOllamaClient "" ""))
      "feat: add line" (by decide) (by decide) (by decide) rfl (by decide) rfl
      (by decide)).1).trans (by decide)⟩

/-- C9, as stated, fails on an edit: the line `  fix: x  ` typed as the
replacement is committed as `fix: x`, which is neither the line read nor the
line without its line feed. -/
theorem edit_is_trimmed :
    (ReadString (ReadString "e\n  fix: x  \n").2).1 = "  fix: x  \n" ∧
    commits (Run demoWorld [.TickMsg] "e\n  fix: x  \n") = ["fix: x"] ∧
    "fix: x" ≠ "  fix: x  \n" ∧ "fix: x" ≠ "  fix: x  " := by
  refine ⟨?_, ?_, ?_, ?_⟩ <;> decide

theorem confirmAndCommit_accept (w : World) (m stdin : String)
    (hy : TrimSpace (ToLower w.lowerTable (ReadString stdin).1) = "y") :
    confirmAndCommit w m stdin =
      [.Println m, .Print "\nCommit with this message? (y/n/e[dit]): ", .ReadString,
       .Commit m,
       .Println (match (w.exec ["git", "commit", "-m", m]).err with
         | some err => "Commit failed: " ++ ("git commit error: " ++ err ++ ", output: " ++
             (w.exec ["git", "commit", "-m", m]).out)
         | none => "Commit successful!")] := by
  unfold confirmAndCommit Commit commitArgv
  simp only [hy, if_true]
  cases (w.exec ["git", "commit", "-m", m]).err <;> rfl

theorem confirmAndCommit_edit (w : World) (m stdin : String)
    (he : TrimSpace (ToLower w.lowerTable (ReadString stdin).1) = "e")
    (hne : TrimSpace (ReadString (ReadString stdin).2).1 ≠ "") :
    confirmAndCommit w m stdin =
      [.Println m, .Print "\nCommit with this message? (y/n/e[dit]): ", .ReadString,
       .Print "Enter new commit message: ", .ReadString,
       .Commit (TrimSpace (ReadString (ReadString stdin).2).1),
       .Println (match (w.exec ["git", "commit", "-m",
           TrimSpace (ReadString (ReadString stdin).2).1]).err with
         | some err => "Commit failed: " ++ ("git commit error: " ++ err ++ ", output: " ++
             (w.exec ["git", "commit", "-m",
               TrimSpace (ReadString (ReadString stdin).2).1]).out)
         | none => "Commit successful!")] := by
  have hny : ¬ ("e" = "y") := by decide
  unfold confirmAndCommit Commit commitArgv
  simp only [he, hny, hne, if_true, if_false]
  cases (w.exec ["git", "commit", "-m", TrimSpace (ReadString (ReadString stdin).2).1]).err <;>
    rfl

/-- C9, amended. When the provider client returned a message without error
and the spinner program ended on that result (no interrupt key before it),
every string passed to `git.Commit` is either the message returned by the
provider client, unchanged, on the answer `y`, or the replacement line with
its leading and trailing white space removed, and nothing else changed, on
the answer `e`. `Commit` runs the subprocess `git commit -m` with that string
as its one, unchanged, last argument and fails exactly when the subprocess
does, so the run ends with the report of that subprocess. -/
theorem commit_round_trip (w : World) (ui : List Msg) (stdin d : String) (eng : LLMEngine)
    (msg : String) (hrepo : IsGitRepo w.exec = true) (hdiff : GetStagedDiff w.exec = (d, none))
    (hd : d ≠ "") (heng : NewEngine w.getString = .ok eng)
    (hgen : eng.GenerateCommitMessage w.net d = .ret msg none)
    (hprog : w.programErr = none) (hint : endsEarly ui = false) :
    (TrimSpace (ToLower w.lowerTable (ReadString stdin).1) = "y" →
      commits (Run w ui stdin) = [msg]) ∧
    (TrimSpace (ToLower w.lowerTable (ReadString stdin).1) = "e" →
      TrimSpace (ReadString (ReadString stdin).2).1 ≠ "" →
      commits (Run w ui stdin) = [TrimSpace (ReadString (ReadString stdin).2).1]) ∧
    (∀ x ∈ commits (Run w ui stdin),
      (TrimSpace (ToLower w.lowerTable (ReadString stdin).1) = "y" ∧ x = msg) ∨
      (TrimSpace (ToLower w.lowerTable (ReadString stdin).1) = "e" ∧
        x = TrimSpace (ReadString (ReadString stdin).2).1)) ∧
    (∀ x, commitArgv x = ["git", "commit", "-m", x]) ∧
    (∀ x, Commit w.exec x =
      match (w.exec ["git", "commit", "-m", x]).err with
      | some err => some ("git commit error: " ++ err ++ ", output: " ++
          (w.exec ["git", "commit", "-m", x]).out)
      | none => none) ∧
    (TrimSpace (ToLower w.lowerTable (ReadString stdin).1) = "y" →
      Run w ui stdin =
        [.IsGitRepo, .GetStagedDiff, .NewEngine, .GenerateCommitMessage d,
         .Println msg, .Print "\nCommit with this message? (y/n/e[dit]): ", .ReadString,
         .Commit msg,
         .Println (match (w.exec ["git", "commit", "-m", msg]).err with
           | some err => "Commit failed: " ++ ("git commit error: " ++ err ++ ", output: " ++
               (w.exec ["git", "commit", "-m", msg]).out)
           | none => "Commit successful!")]) ∧
    (TrimSpace (ToLower w.lowerTable (ReadString stdin).1) = "e" →
      TrimSpace (ReadString (ReadString stdin).2).1 ≠ "" →
      Run w ui stdin =
        [.IsGitRepo, .GetStagedDiff, .NewEngine, .GenerateCommitMessage d,
         .Println msg, .Print "\nCommit with this message? (y/n/e[dit]): ", .ReadString,
         .Print "Enter new commit message: ", .ReadString,
         .Commit (TrimSpace (ReadString (ReadString stdin).2).1),
         .Println (match (w.exec ["git", "commit", "-m",
             TrimSpace (ReadString (ReadString stdin).2).1]).err with
           | some err => "Commit failed: " ++ ("git commit error: " ++ err ++ ", output: " ++
               (w.exec ["git", "commit", "-m",
                 TrimSpace (ReadString (ReadString stdin).2).1]).out)
           | none => "Commit successful!")]) := by
  have hrun := Run_proposing w ui stdin d eng msg hrepo hdiff hd heng hgen hprog hint
  have h : commits (Run w ui stdin) =
      (if TrimSpace (ToLower w.lowerTable (ReadString stdin).1) = "y" then [msg]
       else if TrimSpace (ToLower w.lowerTable (ReadString stdin).1) = "e" then
         (if TrimSpace (ReadString (ReadString stdin).2).1 = "" then []
          else [TrimSpace (ReadString (ReadString stdin).2).1])
       else []) := by
    rw [hrun]
    have h := commits_confirmAndCommit w msg stdin
    simpa [commits] using h
  refine ⟨?_, ?_, ?_, fun x => rfl, fun x => rfl, ?_, ?_⟩
  · intro hy
    rw [h]; simp [hy]
  · intro he hne
    have hny : TrimSpace (ToLower w.lowerTable (ReadString stdin).1) ≠ "y" := by
      rw [he]; decide
    rw [h]; simp [he, hne]
  · intro x hx
    rw [h] at hx
    split_ifs at hx with h1 h2 h3
    · left; exact ⟨h1, by simpa using hx⟩
    · simp at hx
    · right; exact ⟨h2, by simpa using hx⟩
    · simp at hx
  · intro hy
    rw [hrun, confirmAndCommit_accept w msg stdin hy]
    rfl
  · intro he hne
    rw [hrun, confirmAndCommit_edit w msg stdin he hne]
    rfl

/-- C9, amended, on an accepted message, on an edited one, and on an accepted
one that `git commit` rejects. -/
theorem commit_round_trip_witness :
    commits (Run demoWorld [.TickMsg] "y\n") = ["feat: add line"] ∧
    commits (Run demoWorld [.TickMsg] "e\n fix: x \n") = ["fix: x"] ∧
    Run rejectingWorld [.TickMsg] "y\n" =
      [.IsGitRepo, .GetStagedDiff, .NewEngine, .GenerateCommitMessage "+line",
       .Println "feat: add line", .Print "\nCommit with this message? (y/n/e[dit]): ",
       .ReadString, .Commit "feat: add line",
       .Println "Commit failed: git commit error: exit status 1, output: hook failed\n"] :=
  ⟨(commit_round_trip demoWorld [.TickMsg] "y\n" "+line" (.ollama (NewOllamaClient "" ""))
      "feat: add line" (by decide) (by decide) (by decide) rfl (by decide) rfl
      (by decide)).1 (by decide),
   ((commit_round_trip demoWorld [.TickMsg] "e\n fix: x \n" "+line"
      (.ollama (NewOllamaClient "" "")) "feat: add line" (by decide) (by decide) (by decide)
      rfl (by decide) rfl (by decide)).2.1 (by decide) (by decide)).trans (by decide),
   ((commit_round_trip rejectingWorld [.TickMsg] "y\n" "+line"
      (.ollama (NewOllamaClient "" "")) "feat: add line" (by decide) (by decide) (by decide)
      rfl (by decide) rfl (by decide)).2.2.2.2.2.1 (by decide)).trans (by decide)⟩

/-- C2, at the failing input. The interrupt key arrives while the spinner is
loading: the program ends with the model still loading, without message and
without error, and the run goes on to the prompt. On `e` and a replacement
line the run calls `git.Commit` with the replacement; on `y` it calls
`git.Commit` with the empty message. -/
theorem interrupt_still_commits :
    programRun initialModel ([.TickMsg, .KeyMsg "ctrl+c"] ++
        [.generationResult "feat: add line" none])
      = { spinner := 1, loading := true, msg := "", err := none } ∧
    Run demoWorld [.TickMsg, .KeyMsg "ctrl+c"] "e\nfix: x\n" =
      [.IsGitRepo, .GetStagedDiff, .NewEngine, .GenerateCommitMessage "+line",
       .Println "", .Print "\nCommit with this message? (y/n/e[dit]): ", .ReadString,
       .Print "Enter new commit message: ", .ReadString,
       .Commit "fix: x", .Println "Commit successful!"] ∧
    commits (Run demoWorld [.TickMsg, .KeyMsg "ctrl+c"] "y\n") = [""] := by
  refine ⟨?_, ?_, ?_⟩ <;> decide

end GitWhisper
